import Mathlib

/-!
A shallow embedding of the `rocket_newrelic` crate (`src/lib.rs`): a Rocket
fairing that instruments requests with New Relic transactions.  Backend
effects (calls into the external `newrelic` crate) are recorded as explicit
event lists; the request-local cache is modelled as an explicit state record
threaded through the lifecycle hooks and the request guard.
-/

namespace RocketNewRelic

/-- Attribute values accepted by `add_attribute` (the scalar conversions of
the external crate's `Attribute` type). -/
inductive AttrValue
  | str (s : String)
  | int (i : Int)
  | boolean (b : Bool)
  deriving DecidableEq, Repr

/-- Modelled from the spec: the external crate's `Datastore` enum naming the
kind of datastore a datastore segment refers to. -/
inductive Datastore
  | Postgres
  | MySQL
  | Oracle
  | Other
  deriving DecidableEq, Repr

/-- Parameters of a datastore segment, as assembled by the builder chain in
`Transaction::datastore_segment`. -/
structure DatastoreParams where
  datastore : Datastore
  collection : String
  operation : String
  query : String
  deriving DecidableEq, Repr

/-- Parameters of an external segment, as assembled by the builder chain in
`Transaction::external_segment`. -/
structure ExternalParams where
  host : String
  procedure : Option String
  library : Option String
  deriving DecidableEq, Repr

/-- Modelled from the spec: the external crate's `Segment` value passed to a
segment body.  `Segment.None` is the no-op segment context produced by
`Default::default()`, used whenever the body must run outside a real
segment. -/
inductive Segment
  | None
  | custom (name category : String)
  | datastore (params : DatastoreParams)
  | external (params : ExternalParams)
  deriving DecidableEq, Repr

/-- The value of `Default::default()` for `Segment` (the source's doc for the
segment helpers: the function is called with a `newrelic::Segment::None`). -/
def Segment.default : Segment := Segment.None

/-- One observable call into the backend tracing service. -/
inductive Call
  | startTransaction (name : String)
  | addAttribute (key : String) (value : AttrValue)
  | noticeError (priority : Nat) (message : String) (errClass : String)
  | endTransaction
  | segmentStart (seg : Segment)
  | segmentEnd
  deriving DecidableEq, Repr

/-- Modelled from the spec: the opaque backend transaction handle returned by
`start-transaction(name)`; the `ended` flag records whether the handle has
been consumed by `end()`. -/
structure NRTransaction where
  name : String
  ended : Bool
  deriving DecidableEq, Repr

/-- Result of running a segment helper: the body's return value, the list of
arguments the body was invoked with (one entry per invocation), and the
backend calls made. -/
structure SegResult (V : Type) where
  value : V
  invocations : List Segment
  calls : List Call

/-- The `func(Default::default())` fallback common to all segment helpers:
run the body once with the no-op default segment, make no backend call. -/
def callWithDefaultSegment {V : Type} (func : Segment → V) : SegResult V :=
  { value := func Segment.default
    invocations := [Segment.default]
    calls := [] }

/-- Modelled from the spec: the backend's run-in-segment operation for custom
segments — notify segment start, run the body exactly once with the live
segment, notify segment end, and return the body's value untouched. -/
def NRTransaction.custom_segment {V : Type} (_t : NRTransaction)
    (name category : String) (func : Segment → V) : SegResult V :=
  let seg := Segment.custom name category
  { value := func seg
    invocations := [seg]
    calls := [Call.segmentStart seg, Call.segmentEnd] }

/-- Modelled from the spec: the backend's run-in-segment operation for
datastore segments. -/
def NRTransaction.datastore_segment {V : Type} (_t : NRTransaction)
    (params : DatastoreParams) (func : Segment → V) : SegResult V :=
  let seg := Segment.datastore params
  { value := func seg
    invocations := [seg]
    calls := [Call.segmentStart seg, Call.segmentEnd] }

/-- Modelled from the spec: the backend's run-in-segment operation for
external segments. -/
def NRTransaction.external_segment {V : Type} (_t : NRTransaction)
    (params : ExternalParams) (func : Segment → V) : SegResult V :=
  let seg := Segment.external params
  { value := func seg
    invocations := [seg]
    calls := [Call.segmentStart seg, Call.segmentEnd] }

/-- Modelled from the spec: `DatastoreParamsBuilder::build` — parameter
construction fails when the collection (table) contains the path-separator
character, the backend's documented constraint. -/
def buildDatastoreParams (datastore : Datastore)
    (collection operation query : String) : Option DatastoreParams :=
  if collection.data.contains '/' then none
  else some { datastore := datastore, collection := collection,
              operation := operation, query := query }

/-- Modelled from the spec: the `ExternalParamsBuilder` chain of
`Transaction::external_segment` — `procedure` and `library`, when provided,
must not contain the path-separator character. -/
def buildExternalParams (host : String)
    (procedure library : Option String) : Option ExternalParams :=
  if (procedure.getD ("")).data.contains '/' || (library.getD ("")).data.contains '/' then
    none
  else some { host := host, procedure := procedure, library := library }

/-- The payload of `Transaction::Running`: the backend transaction behind a
reader/writer lock, modelled as the protected value plus a poisoned flag. -/
structure InnerTransaction where
  poisoned : Bool
  tx : NRTransaction
  deriving DecidableEq, Repr

/-- `RwLock::read` on the inner transaction: `none` models the `Err` result
of a poisoned lock. -/
def InnerTransaction.read (i : InnerTransaction) : Option NRTransaction :=
  if i.poisoned then none else some i.tx

/-- `RwLock::write` on the inner transaction: `none` models the `Err` result
of a poisoned lock. -/
def InnerTransaction.write (i : InnerTransaction) : Option NRTransaction :=
  if i.poisoned then none else some i.tx

/-- The crate's `Transaction` enum: a running New Relic transaction, or the
dummy `None` variant used when the SDK returned an error. -/
inductive Transaction
  | Running (inner : InnerTransaction)
  | None
  deriving DecidableEq, Repr

/-- `Transaction::add_attribute`: on `Running`, take the read lock and
forward the key/value pair (the backend's own accept/reject result is only
logged); on a poisoned lock only a warning is logged; on `None` nothing
happens.  Returns the backend calls made. -/
def Transaction.add_attribute (self : Transaction)
    (key : String) (value : AttrValue) : List Call :=
  match self with
  | Transaction.Running inner =>
    match inner.read with
    | some _t => [Call.addAttribute key value]
    | none => []
  | Transaction.None => []

/-- `Transaction::custom_segment`: on `Running` with the read lock held,
delegate to the backend's custom segment runner; on a poisoned lock or on
`None`, call the function with the default (no-op) segment. -/
def Transaction.custom_segment {V : Type} (self : Transaction)
    (name category : String) (func : Segment → V) : SegResult V :=
  match self with
  | Transaction.Running inner =>
    match inner.read with
    | some t => t.custom_segment name category func
    | none => callWithDefaultSegment func
  | Transaction.None => callWithDefaultSegment func

/-- `Transaction::datastore_segment`: on `Running` with the read lock held,
build the datastore parameters and delegate to the backend; if parameter
construction fails, or the lock is poisoned, or the transaction is `None`,
call the function with the default (no-op) segment. -/
def Transaction.datastore_segment {V : Type} (self : Transaction)
    (datastore : Datastore) (table operation sql : String)
    (func : Segment → V) : SegResult V :=
  match self with
  | Transaction.Running inner =>
    match inner.read with
    | some t =>
      match buildDatastoreParams datastore table operation sql with
      | some p => t.datastore_segment p func
      | none => callWithDefaultSegment func
    | none => callWithDefaultSegment func
  | Transaction.None => callWithDefaultSegment func

/-- `Transaction::external_segment`: on `Running` with the read lock held,
build the external parameters and delegate to the backend; if parameter
construction fails, or the lock is poisoned, or the transaction is `None`,
call the function with the default (no-op) segment. -/
def Transaction.external_segment {V : Type} (self : Transaction)
    (host : String) (procedure library : Option String)
    (func : Segment → V) : SegResult V :=
  match self with
  | Transaction.Running inner =>
    match inner.read with
    | some t =>
      match buildExternalParams host procedure library with
      | some p => t.external_segment p func
      | none => callWithDefaultSegment func
    | none => callWithDefaultSegment func
  | Transaction.None => callWithDefaultSegment func

/-- A matched Rocket route: its mount base path and the optional handler
name (`r.base`, `r.name` in `Transaction::new`). -/
structure Route where
  base : String
  name : Option String
  deriving DecidableEq, Repr

/-- The part of a Rocket request that `Transaction::new` consults: the
matched route (if any) and the request URI. -/
structure Request where
  route : Option Route
  uri : String
  deriving DecidableEq, Repr

/-- `str::trim_start_matches(c)`: drop every leading occurrence of the
character from the string. -/
def trimStartMatches (s : String) (c : Char) : String :=
  String.mk (s.data.dropWhile (fun x => x = c))

/-- The transaction-name computation of `Transaction::new`: base path with
leading slashes stripped, a slash, then the handler name (or the
`unknown_handler` fallback); the bare fallback when no route matched. -/
def transactionName (route : Option Route) : String :=
  match route with
  | some r =>
    trimStartMatches r.base '/' ++ "/" ++ r.name.getD ("unknown_handler")
  | none => "unknown_handler"

/-- Modelled from the spec: the external crate's `App` (the registered
backend handle).  `startOk` is the oracle for whether `web_transaction`
succeeds; `attrOk` for whether an attribute write is accepted. -/
structure App where
  startOk : Bool
  attrOk : Bool
  deriving DecidableEq, Repr

/-- Modelled from the spec: `start-transaction(name)` returns a fresh
backend handle or an error, per the `startOk` oracle. -/
def App.web_transaction (app : App) (name : String) : Option NRTransaction :=
  if app.startOk then some { name := name, ended := false } else none

/-- `Transaction::new`: compute the transaction name from the route, ask the
backend to start a web transaction; on success record the request URI as the
`uri` attribute (the write's own failure is only logged) and wrap the handle
in `Running` behind a fresh lock; on failure log a warning and return
`None`.  Also returns the backend calls made. -/
def Transaction.new (app : App) (request : Request) : Transaction × List Call :=
  let transaction_name := transactionName request.route
  match app.web_transaction transaction_name with
  | some transaction =>
    (Transaction.Running { poisoned := false, tx := transaction },
      [Call.startTransaction transaction_name,
       Call.addAttribute ("uri") (AttrValue.str request.uri)])
  | none =>
    (Transaction.None, [Call.startTransaction transaction_name])

/-- The `AppWrapper` enum used to pass the app through the request-local
cache: either a counted reference to the app, or `None` when the fairing
was never attached. -/
inductive AppWrapper
  | App (app : RocketNewRelic.App)
  | None
  deriving DecidableEq, Repr

/-- The per-request state: Rocket's request-local cache (one slot per cached
type — one for `AppWrapper`, one for `Transaction`), plus the trace of
backend calls made on behalf of this request. -/
structure ReqState where
  appCache : Option AppWrapper
  txCache : Option Transaction
  calls : List Call
  deriving DecidableEq, Repr

/-- The `request::Outcome` returned by a request guard. -/
inductive ROutcome
  | success (t : Transaction)
  | failure
  | forward
  deriving DecidableEq, Repr

/-- The fairing: wraps the shared reference-counted `App`. -/
structure NewRelic where
  app : App
  deriving DecidableEq, Repr

/-- `NewRelic::on_request`: stash the app into the request-local cache via
`local_cache` (get-or-initialize; an already-populated slot is left
untouched).  No transaction is created and no backend call is made. -/
def NewRelic.on_request (nr : NewRelic) (s : ReqState) : ReqState :=
  match s.appCache with
  | some _ => s
  | none => { s with appCache := some (AppWrapper.App nr.app) }

/-- `FromRequest for &Transaction::from_request`: read the cached
`AppWrapper` (initializing the slot to `AppWrapper::None` if empty); with an
app available, get-or-create the cached transaction via `Transaction::new`;
without one, get-or-initialize the cached transaction to `Transaction::None`.
Always returns `Outcome::Success`. -/
def from_request (request : Request) (s : ReqState) : ROutcome × ReqState :=
  match s.appCache with
  | some (AppWrapper.App app) =>
    match s.txCache with
    | some tx => (ROutcome.success tx, s)
    | none =>
      let r := Transaction.new app request
      (ROutcome.success r.1,
        { s with txCache := some r.1, calls := s.calls ++ r.2 })
  | some AppWrapper.None =>
    match s.txCache with
    | some tx => (ROutcome.success tx, s)
    | none =>
      (ROutcome.success Transaction.None,
        { s with txCache := some Transaction.None })
  | none =>
    match s.txCache with
    | some tx =>
      (ROutcome.success tx, { s with appCache := some AppWrapper.None })
    | none =>
      (ROutcome.success Transaction.None,
        { s with appCache := some AppWrapper.None,
                 txCache := some Transaction.None })

/-- Iterated invocation of the request guard within one request. -/
def iterate_from_request (request : Request) : Nat → ReqState → ReqState
  | 0, s => s
  | Nat.succ n, s => iterate_from_request request n (from_request request s).2

/-- Number of backend transaction-start calls in a trace. -/
def countStarts (cs : List Call) : Nat :=
  cs.countP (fun c =>
    match c with
    | Call.startTransaction _ => true
    | _ => false)

/-- Number of backend transaction-finalization calls in a trace. -/
def countEnds (cs : List Call) : Nat :=
  cs.countP (fun c =>
    match c with
    | Call.endTransaction => true
    | _ => false)

/-- A Rocket response status: numeric code and reason phrase. -/
structure Status where
  code : Nat
  reason : String
  deriving DecidableEq, Repr

/-- `status.class().is_success()`: the status class is `Success` exactly for
codes 200–299. -/
def Status.classIsSuccess (s : Status) : Bool :=
  decide (200 ≤ s.code) && decide (s.code < 300)

/-- `status.to_string()`: Rocket renders a status as `"<code> <reason>"`. -/
def Status.to_string (s : Status) : String :=
  toString s.code ++ " " ++ s.reason

/-- Modelled from the spec: the backend handle's `end()` — the backend
object is consumed by the first successful end; a second call is a safe
no-op (logged at debug level), so finalization happens at most once. -/
def NRTransaction.end_ (t : NRTransaction) : NRTransaction × List Call :=
  if t.ended then (t, [])
  else ({ t with ended := true }, [Call.endTransaction])

/-- `NewRelic::on_response`: look up the cached transaction (initializing
the slot to `Transaction::None` if empty); if it is `Running`, take the
write lock, record a `notice_error(100, status.to_string(), "")` when the
status class is not success, then end the transaction.  A poisoned lock
only logs a warning. -/
def NewRelic.on_response (_nr : NewRelic) (s : ReqState) (status : Status) :
    ReqState :=
  let pair :=
    match s.txCache with
    | some tx => (tx, s)
    | none => (Transaction.None, { s with txCache := some Transaction.None })
  match pair.1 with
  | Transaction.Running inner =>
    match inner.write with
    | some t =>
      let errCalls :=
        if !status.classIsSuccess then
          [Call.noticeError 100 (status.to_string) ("")]
        else []
      let er := t.end_
      { pair.2 with
          txCache := some (Transaction.Running { inner with tx := er.1 }),
          calls := pair.2.calls ++ errCalls ++ er.2 }
    | none => pair.2
  | Transaction.None => pair.2

/-- The log levels of the `log` crate. -/
inductive Level
  | error
  | warn
  | info
  | debug
  | trace
  deriving DecidableEq, Repr

/-- ASCII lower-casing of a single character. -/
def asciiLower (c : Char) : Char :=
  if 65 ≤ c.toNat ∧ c.toNat ≤ 90 then Char.ofNat (c.toNat + 32) else c

/-- Case-insensitive ASCII comparison of two strings. -/
def eqIgnoreAsciiCase (a b : String) : Bool :=
  a.data.map asciiLower == b.data.map asciiLower

/-- Modelled from the spec: `log::Level`'s string parse — case-insensitive
match against the five level names. -/
def parseLevel (s : String) : Option Level :=
  if eqIgnoreAsciiCase s ("ERROR") then some Level.error
  else if eqIgnoreAsciiCase s ("WARN") then some Level.warn
  else if eqIgnoreAsciiCase s ("INFO") then some Level.info
  else if eqIgnoreAsciiCase s ("DEBUG") then some Level.debug
  else if eqIgnoreAsciiCase s ("TRACE") then some Level.trace
  else none

/-- The crate's `error::Error`, with the external payloads elided. -/
inductive FairingError
  | NewRelicError
  | VarError
  deriving DecidableEq, Repr

/-- Modelled from the spec: the startup-time backend oracles —
`registerOk` for `newrelic::App::new`, `initOk` for
`NewRelicConfig::init`, and the app handle produced on success. -/
structure Backend where
  registerOk : Bool
  initOk : Bool
  app : App
  deriving DecidableEq, Repr

/-- `NewRelic::new`: register the application with New Relic; on success
wrap the app, on failure return the SDK error. -/
def NewRelic.new (be : Backend) (_app_name _license_key : String) :
    Except FairingError NewRelic :=
  if be.registerOk then Except.ok { app := be.app }
  else Except.error FairingError.NewRelicError

/-- `NewRelic::from_env`: read the two required environment values (absence
is a `VarError`); if a log-level value is present, parse it (a malformed
value logs a warning and degrades to `Info`) and initialize the SDK logging
config (whose failure propagates); finally register the app.  The second
component reports the log level configured, if any. -/
def NewRelic.from_env (be : Backend) (env : String → Option String) :
    Except FairingError NewRelic × Option Level :=
  match env ("NEW_RELIC_APP_NAME") with
  | none => (Except.error FairingError.VarError, none)
  | some app_name =>
    match env ("NEW_RELIC_LICENSE_KEY") with
    | none => (Except.error FairingError.VarError, none)
    | some license_key =>
      match env ("NEW_RELIC_LOG_LEVEL") with
      | some levelStr =>
        let level :=
          match parseLevel levelStr with
          | some level => level
          | none => Level.info
        if be.initOk then (NewRelic.new be app_name license_key, some level)
        else (Except.error FairingError.NewRelicError, some level)
      | none => (NewRelic.new be app_name license_key, none)

end RocketNewRelic

namespace RocketNewRelic

/-- C1: on the `None` (inert) variant, `add_attribute` is a silent no-op
making no backend call, and each of `custom_segment`, `datastore_segment`
and `external_segment` invokes the caller-supplied body exactly once with
the no-op default segment, makes no backend call, and returns the body's
value unchanged. -/
theorem inert_transaction_is_transparent
    (key : String) (v : AttrValue) (name category : String)
    (d : Datastore) (table operation sql host : String)
    (procedure library : Option String) {V : Type} (func : Segment → V) :
    Transaction.add_attribute Transaction.None key v = [] ∧
    (Transaction.custom_segment Transaction.None name category func).value
      = func Segment.default ∧
    (Transaction.custom_segment Transaction.None name category func).invocations
      = [Segment.default] ∧
    (Transaction.custom_segment Transaction.None name category func).calls = [] ∧
    (Transaction.datastore_segment Transaction.None d table operation sql func).value
      = func Segment.default ∧
    (Transaction.datastore_segment Transaction.None d table operation sql func).invocations
      = [Segment.default] ∧
    (Transaction.datastore_segment Transaction.None d table operation sql func).calls = [] ∧
    (Transaction.external_segment Transaction.None host procedure library func).value
      = func Segment.default ∧
    (Transaction.external_segment Transaction.None host procedure library func).invocations
      = [Segment.default] ∧
    (Transaction.external_segment Transaction.None host procedure library func).calls = [] :=
  ⟨rfl, rfl, rfl, rfl, rfl, rfl, rfl, rfl, rfl, rfl⟩

/-- After any invocation of the request guard the transaction slot of the
request-local cache is populated. -/
theorem from_request_txCache_isSome (request : Request) (s : ReqState) :
    ((from_request request s).2.txCache).isSome := by
  cases hA : s.appCache with
  | none => cases hT : s.txCache <;> simp [from_request, hA, hT]
  | some aw =>
    cases aw with
    | App app => cases hT : s.txCache <;> simp [from_request, hA, hT]
    | None => cases hT : s.txCache <;> simp [from_request, hA, hT]

/-- With a memoized transaction in the cache, the request guard returns it,
makes no backend call, and leaves the memoized value in place. -/
theorem from_request_preserves_memoized (request : Request) (s : ReqState)
    (tx : Transaction) (h : s.txCache = some tx) :
    (from_request request s).1 = ROutcome.success tx ∧
    (from_request request s).2.calls = s.calls ∧
    (from_request request s).2.txCache = some tx := by
  cases hA : s.appCache with
  | none => simp [from_request, hA, h]
  | some aw => cases aw <;> simp [from_request, hA, h]

/-- Start-call counts add over concatenated traces. -/
theorem countStarts_append (a b : List Call) :
    countStarts (a ++ b) = countStarts a + countStarts b := by
  simp [countStarts, List.countP_append]

/-- `Transaction::new` makes exactly one backend transaction-start call. -/
theorem countStarts_new (app : App) (request : Request) :
    countStarts (Transaction.new app request).2 = 1 := by
  unfold Transaction.new App.web_transaction
  cases h : app.startOk <;> simp [h, countStarts]

/-- A single invocation of the request guard makes at most one backend
transaction-start call. -/
theorem from_request_step_count (request : Request) (s : ReqState) :
    countStarts (from_request request s).2.calls ≤ countStarts s.calls + 1 := by
  cases hA : s.appCache with
  | none => cases hT : s.txCache <;> simp [from_request, hA, hT]
  | some aw =>
    cases aw with
    | App app =>
      cases hT : s.txCache with
      | none =>
        simp [from_request, hA, hT, countStarts_append, countStarts_new]
      | some tx => simp [from_request, hA, hT]
    | None => cases hT : s.txCache <;> simp [from_request, hA, hT]

/-- Iterating the request guard over a state with a memoized transaction
changes neither the trace nor the memoized value. -/
theorem iterate_preserves_memoized (request : Request) (n : Nat)
    (s : ReqState) (tx : Transaction) (h : s.txCache = some tx) :
    (iterate_from_request request n s).calls = s.calls ∧
    (iterate_from_request request n s).txCache = some tx := by
  induction n generalizing s with
  | zero => simp [iterate_from_request, h]
  | succ n ih =>
    have hp := from_request_preserves_memoized request s tx h
    have hi := ih (from_request request s).2 hp.2.2
    refine ⟨?_, ?_⟩
    · show (iterate_from_request request n (from_request request s).2).calls = s.calls
      rw [hi.1, hp.2.1]
    · exact hi.2

/-- C3: at most one backend transaction-start call is made per request,
however many times the request guard runs: once the transaction is
memoized, further invocations return it unchanged with no backend call, and
iterating the guard any number of times adds at most one start call to the
trace. -/
theorem from_request_at_most_one_start (request : Request) (s : ReqState)
    (n : Nat) :
    (∀ tx, s.txCache = some tx →
      (from_request request s).1 = ROutcome.success tx ∧
      (from_request request s).2.calls = s.calls ∧
      (from_request request s).2.txCache = some tx) ∧
    countStarts (iterate_from_request request n s).calls
      ≤ countStarts s.calls + 1 := by
  constructor
  · intro tx h
    exact from_request_preserves_memoized request s tx h
  · cases n with
    | zero => simp [iterate_from_request]
    | succ n =>
      have h1 := from_request_step_count request s
      have h2 := from_request_txCache_isSome request s
      rcases Option.isSome_iff_exists.mp h2 with ⟨tx, htx⟩
      have h3 := iterate_preserves_memoized request n (from_request request s).2 tx htx
      show countStarts (iterate_from_request request n (from_request request s).2).calls
        ≤ countStarts s.calls + 1
      rw [h3.1]
      exact h1

/-- Witness for C3 at a concrete request and state. -/
theorem from_request_at_most_one_start_witness :
    (from_request { route := none, uri := "/x" }
        { appCache := some AppWrapper.None,
          txCache := some Transaction.None, calls := [] }).1
      = ROutcome.success Transaction.None ∧
    countStarts (iterate_from_request { route := none, uri := "/x" } 3
        { appCache := some AppWrapper.None,
          txCache := some Transaction.None, calls := [] }).calls
      ≤ countStarts ([] : List Call) + 1 := by
  have h := from_request_at_most_one_start { route := none, uri := "/x" }
      { appCache := some AppWrapper.None,
        txCache := some Transaction.None, calls := [] } 3
  exact ⟨(h.1 Transaction.None rfl).1, h.2⟩

/-- C8: the request-start hook only stashes the shared app handle into the
request-local cache: the cached transaction and the backend-call trace are
untouched (so no transaction is created eagerly), and an empty app slot is
filled with the wrapped app. -/
theorem on_request_only_stashes_app (nr : NewRelic) (s : ReqState) :
    (nr.on_request s).txCache = s.txCache ∧
    (nr.on_request s).calls = s.calls ∧
    (s.appCache = none →
      (nr.on_request s).appCache = some (AppWrapper.App nr.app)) := by
  cases hA : s.appCache <;> simp [NewRelic.on_request, hA]

/-- Witness for C8 at a concrete fairing and fresh request state. -/
theorem on_request_only_stashes_app_witness :
    (NewRelic.on_request { app := { startOk := true, attrOk := true } }
        { appCache := none, txCache := none, calls := [] }).appCache
      = some (AppWrapper.App { startOk := true, attrOk := true }) ∧
    (NewRelic.on_request { app := { startOk := true, attrOk := true } }
        { appCache := none, txCache := none, calls := [] }).calls = [] := by
  have h := on_request_only_stashes_app
      { app := { startOk := true, attrOk := true } }
      { appCache := none, txCache := none, calls := [] }
  exact ⟨h.2.2 rfl, h.2.1⟩

/-- C10: the request guard is total — it always produces a successful
outcome carrying a transaction, and when the fairing was never attached
(empty app slot) it memoizes and returns the `None` (inert) variant. -/
theorem from_request_is_total (request : Request) (s : ReqState) :
    (∃ tx, (from_request request s).1 = ROutcome.success tx) ∧
    (s.appCache = none → s.txCache = none →
      (from_request request s).1 = ROutcome.success Transaction.None ∧
      (from_request request s).2.txCache = some Transaction.None) := by
  obtain ⟨ac, tc, cs⟩ := s
  refine ⟨?_, ?_⟩
  · cases ac with
    | none => cases tc <;> exact ⟨_, rfl⟩
    | some aw => cases aw <;> cases tc <;> exact ⟨_, rfl⟩
  · intro h1 h2
    replace h1 : ac = none := h1
    replace h2 : tc = none := h2
    subst h1
    subst h2
    exact ⟨rfl, rfl⟩

/-- Witness for C10 at a concrete request with no fairing attached. -/
theorem from_request_is_total_witness :
    (from_request { route := none, uri := "/y" }
        { appCache := none, txCache := none, calls := [] }).1
      = ROutcome.success Transaction.None ∧
    (from_request { route := none, uri := "/y" }
        { appCache := none, txCache := none, calls := [] }).2.txCache
      = some Transaction.None := by
  have h := from_request_is_total { route := none, uri := "/y" }
      { appCache := none, txCache := none, calls := [] }
  exact ⟨(h.2 rfl rfl).1, (h.2 rfl rfl).2⟩

/-- C5: the transaction name for a routed request is the route's base path
with its leading slash stripped, then `/`, then the handler name; an
unnamed handler contributes the literal `unknown_handler`, and with no
matched route the name is the bare fallback literal. -/
theorem transaction_name_from_route (r : Route) (l : List Char) (h : String)
    (hb : r.base.data = '/' :: l) (hl : l.head? ≠ some '/') :
    (r.name = some h →
      transactionName (some r) = String.mk l ++ "/" ++ h) ∧
    (r.name = none →
      transactionName (some r) = String.mk l ++ "/" ++ "unknown_handler") ∧
    transactionName none = "unknown_handler" := by
  have hdrop : List.dropWhile (fun x => decide (x = '/')) l = l := by
    cases l with
    | nil => rfl
    | cons c cs =>
      have hc : c ≠ '/' := by simpa using hl
      simp [List.dropWhile_cons, hc]
  have hname : trimStartMatches r.base '/' = String.mk l := by
    unfold trimStartMatches
    rw [hb]
    simp [List.dropWhile_cons, hdrop]
  refine ⟨?_, ?_, rfl⟩
  · intro hn
    simp [transactionName, hname, hn]
  · intro hn
    simp [transactionName, hname, hn]

/-- Witness for C5: route base `/users`, handler `create_user`. -/
theorem transaction_name_from_route_witness :
    transactionName (some { base := "/users", name := some ("create_user") })
      = "users/create_user" := by
  have h := (transaction_name_from_route
      { base := "/users", name := some ("create_user") }
      ("users".data) ("create_user") rfl (by decide)).1 rfl
  exact h

/-- C7: transaction creation — when the backend start call succeeds the
result is the `Running` variant behind a fresh (unpoisoned) lock and the
request URI is immediately written as the `uri` attribute (for any value of
the attribute-write oracle, so its failure is non-fatal); when the backend
start call fails, the `None` variant is returned and only the start attempt
reached the backend. -/
theorem transaction_new_running_or_inert (app : App) (request : Request) :
    (app.startOk = true →
      Transaction.new app request =
        (Transaction.Running
           { poisoned := false,
             tx := { name := transactionName request.route, ended := false } },
         [Call.startTransaction (transactionName request.route),
          Call.addAttribute ("uri") (AttrValue.str request.uri)])) ∧
    (app.startOk = false →
      Transaction.new app request =
        (Transaction.None,
         [Call.startTransaction (transactionName request.route)])) := by
  constructor <;> intro h <;>
    simp [Transaction.new, App.web_transaction, h]

/-- Witness for C7: a concrete app whose attribute writes fail still yields
a `Running` transaction with the `uri` attribute attempt recorded. -/
theorem transaction_new_running_or_inert_witness :
    Transaction.new { startOk := true, attrOk := false }
        { route := some { base := "/users", name := some ("create_user") },
          uri := "/users" }
      = (Transaction.Running
           { poisoned := false,
             tx := { name := "users/create_user", ended := false } },
         [Call.startTransaction ("users/create_user"),
          Call.addAttribute ("uri") (AttrValue.str ("/users"))]) := by
  have h := (transaction_new_running_or_inert { startOk := true, attrOk := false }
      { route := some { base := "/users", name := some ("create_user") },
        uri := "/users" }).1 rfl
  exact h

/-- C2: at response time, on a running transaction whose lock is healthy and
which has not yet ended, a non-success status records exactly one error
annotation — `notice_error(100, status.to_string(), "")` — followed by the
end of the transaction; a success status records no error annotation and
the transaction is still ended. -/
theorem on_response_records_error_and_ends (nr : NewRelic) (s : ReqState)
    (status : Status) (inner : InnerTransaction)
    (hc : s.txCache = some (Transaction.Running inner))
    (hp : inner.poisoned = false) (he : inner.tx.ended = false) :
    (status.classIsSuccess = false →
      (nr.on_response s status).calls =
        s.calls ++ [Call.noticeError 100 (status.to_string) (""),
          Call.endTransaction]) ∧
    (status.classIsSuccess = true →
      (nr.on_response s status).calls = s.calls ++ [Call.endTransaction]) ∧
    (nr.on_response s status).txCache =
      some (Transaction.Running
        { inner with tx := { inner.tx with ended := true } }) := by
  refine ⟨?_, ?_, ?_⟩
  · intro hs
    simp [NewRelic.on_response, hc, InnerTransaction.write, hp,
      NRTransaction.end_, he, hs]
  · intro hs
    simp [NewRelic.on_response, hc, InnerTransaction.write, hp,
      NRTransaction.end_, he, hs]
  · simp [NewRelic.on_response, hc, InnerTransaction.write, hp,
      NRTransaction.end_, he]

/-- Witness for C2 at statuses 500 (one error annotation, then end) and 204
(no error annotation, then end). -/
theorem on_response_records_error_and_ends_witness :
    (NewRelic.on_response { app := { startOk := true, attrOk := true } }
        { appCache := none,
          txCache := some (Transaction.Running
            { poisoned := false, tx := { name := "n", ended := false } }),
          calls := [] }
        { code := 500, reason := "Internal Server Error" }).calls
      = [Call.noticeError 100 ("500 Internal Server Error") (""),
         Call.endTransaction] ∧
    (NewRelic.on_response { app := { startOk := true, attrOk := true } }
        { appCache := none,
          txCache := some (Transaction.Running
            { poisoned := false, tx := { name := "n", ended := false } }),
          calls := [] }
        { code := 204, reason := "No Content" }).calls
      = [Call.endTransaction] := by
  have h1 := (on_response_records_error_and_ends
      { app := { startOk := true, attrOk := true } }
      { appCache := none,
        txCache := some (Transaction.Running
          { poisoned := false, tx := { name := "n", ended := false } }),
        calls := [] }
      { code := 500, reason := "Internal Server Error" }
      { poisoned := false, tx := { name := "n", ended := false } }
      rfl rfl rfl).1 (by decide)
  have h2 := (on_response_records_error_and_ends
      { app := { startOk := true, attrOk := true } }
      { appCache := none,
        txCache := some (Transaction.Running
          { poisoned := false, tx := { name := "n", ended := false } }),
        calls := [] }
      { code := 204, reason := "No Content" }
      { poisoned := false, tx := { name := "n", ended := false } }
      rfl rfl rfl).2.1 (by decide)
  exact ⟨h1, h2⟩

/-- C6: `end()` is idempotent — a second call on an already-ended backend
transaction handle is a safe no-op returning the state unchanged and making
no backend call, and across the two calls the backend finalization is
performed at most once. -/
theorem end_is_idempotent (t : NRTransaction) :
    ((t.end_).1).end_ = ((t.end_).1, ([] : List Call)) ∧
    countEnds ((t.end_).2 ++ ((t.end_).1.end_).2) ≤ 1 := by
  cases h : t.ended <;> simp [NRTransaction.end_, h, countEnds]

/-- C4 evidence: every backend-unavailable error inside the non-diesel
operations is recovered locally — on a poisoned lock, `add_attribute` makes
no backend call, and each segment helper runs the body once with the no-op
default segment and returns its value; likewise when segment-parameter
construction fails (a path separator in the table, or in the external
procedure) under a healthy lock. -/
theorem backend_unavailable_recovery (inner : InnerTransaction)
    (okTx : NRTransaction) (hp : inner.poisoned = true)
    (key : String) (v : AttrValue) (name category : String)
    (d : Datastore) (table operation sql host : String)
    (procedure library : Option String) {V : Type} (func : Segment → V)
    (htable : table.data.contains '/' = true)
    (pstr : String) (hproc : pstr.data.contains '/' = true) :
    Transaction.add_attribute (Transaction.Running inner) key v = [] ∧
    Transaction.custom_segment (Transaction.Running inner) name category func
      = callWithDefaultSegment func ∧
    Transaction.datastore_segment (Transaction.Running inner) d table operation sql func
      = callWithDefaultSegment func ∧
    Transaction.external_segment (Transaction.Running inner) host procedure library func
      = callWithDefaultSegment func ∧
    Transaction.datastore_segment
        (Transaction.Running { poisoned := false, tx := okTx })
        d table operation sql func
      = callWithDefaultSegment func ∧
    Transaction.external_segment
        (Transaction.Running { poisoned := false, tx := okTx })
        host (some pstr) library func
      = callWithDefaultSegment func := by
  have htable' : '/' ∈ table.data := by simpa using htable
  have hproc' : '/' ∈ pstr.data := by simpa using hproc
  refine ⟨?_, ?_, ?_, ?_, ?_, ?_⟩ <;>
    simp [Transaction.add_attribute, Transaction.custom_segment,
      Transaction.datastore_segment, Transaction.external_segment,
      InnerTransaction.read, hp, buildDatastoreParams, buildExternalParams,
      htable', hproc']

/-- Witness for C4 at a poisoned lock and at a slash-containing table. -/
theorem backend_unavailable_recovery_witness :
    Transaction.add_attribute
        (Transaction.Running
          { poisoned := true, tx := { name := "n", ended := false } })
        ("k") (AttrValue.int 1) = [] ∧
    (Transaction.datastore_segment
        (Transaction.Running
          { poisoned := false, tx := { name := "n", ended := false } })
        Datastore.Postgres ("bad/table") ("select") ("SELECT 1")
        (fun s => s)).value
      = Segment.default := by
  have h := backend_unavailable_recovery
      { poisoned := true, tx := { name := "n", ended := false } }
      { name := "n", ended := false } rfl ("k") (AttrValue.int 1)
      ("nm") ("cat") Datastore.Postgres ("bad/table") ("select") ("SELECT 1")
      ("host") none none (fun s => s) (by decide) ("p/q") (by decide)
  refine ⟨h.1, ?_⟩
  rw [h.2.2.2.2.1]
  rfl

/-- C9: environment-based construction — absence of either required
environment value fails with a `VarError`; a present-but-malformed
log-level value does not fail construction and degrades to the default
level `Info`. -/
theorem from_env_required_and_log_level (be : Backend)
    (env : String → Option String) :
    (env ("NEW_RELIC_APP_NAME") = none →
      (NewRelic.from_env be env).1 = Except.error FairingError.VarError) ∧
    (env ("NEW_RELIC_LICENSE_KEY") = none →
      (NewRelic.from_env be env).1 = Except.error FairingError.VarError) ∧
    (∀ a k ls, env ("NEW_RELIC_APP_NAME") = some a →
      env ("NEW_RELIC_LICENSE_KEY") = some k →
      env ("NEW_RELIC_LOG_LEVEL") = some ls →
      parseLevel ls = none →
      be.initOk = true → be.registerOk = true →
      NewRelic.from_env be env
        = (Except.ok { app := be.app }, some Level.info)) := by
  refine ⟨?_, ?_, ?_⟩
  · intro h
    simp [NewRelic.from_env, h]
  · intro h
    cases hA : env ("NEW_RELIC_APP_NAME") with
    | none => simp [NewRelic.from_env, hA]
    | some a => simp [NewRelic.from_env, hA, h]
  · intro a k ls h1 h2 h3 h4 h5 h6
    simp [NewRelic.from_env, h1, h2, h3, h4, h5, NewRelic.new, h6]

/-- Witness for C9: a malformed level value (`verbose`) degrades to `Info`
and construction succeeds; an empty environment fails with `VarError`. -/
theorem from_env_required_and_log_level_witness :
    (NewRelic.from_env
        { registerOk := true, initOk := true,
          app := { startOk := true, attrOk := true } }
        (fun k => if k = ("NEW_RELIC_APP_NAME") then some ("my-app")
          else if k = ("NEW_RELIC_LICENSE_KEY") then some ("secret")
          else if k = ("NEW_RELIC_LOG_LEVEL") then some ("verbose")
          else none))
      = (Except.ok { app := { startOk := true, attrOk := true } },
         some Level.info) ∧
    (NewRelic.from_env
        { registerOk := true, initOk := true,
          app := { startOk := true, attrOk := true } }
        (fun _ => none)).1
      = Except.error FairingError.VarError := by
  have h1 := (from_env_required_and_log_level
      { registerOk := true, initOk := true,
        app := { startOk := true, attrOk := true } }
      (fun k => if k = ("NEW_RELIC_APP_NAME") then some ("my-app")
        else if k = ("NEW_RELIC_LICENSE_KEY") then some ("secret")
        else if k = ("NEW_RELIC_LOG_LEVEL") then some ("verbose")
        else none)).2.2 ("my-app") ("secret") ("verbose")
      (by decide) (by decide) (by decide) (by decide) rfl rfl
  have h2 := (from_env_required_and_log_level
      { registerOk := true, initOk := true,
        app := { startOk := true, attrOk := true } }
      (fun _ => none)).1 rfl
  exact ⟨h1, h2⟩

end RocketNewRelic
